import Mathlib

/-!
Shallow embedding of the order/stock core of the E-commerce backend
(Express + Mongoose application).

JavaScript numbers are modelled as rationals (ℚ); exact arithmetic stands
in for IEEE doubles, which none of the verified properties exercise near
their precision limits.  Mongo object ids are modelled as naturals; the
Order collection is modelled as a list whose list index plays the role of
the document id.  Wall-clock fields (`createdAt`) are not modelled: no
verified property mentions them.
-/

namespace ECommerce

/-- Product / user identifiers: Mongo ObjectIds, opaque unique ids
(modelled as naturals). -/
abbrev ProductId := Nat

/-- User identifiers (`req.user.id` from the JWT). -/
abbrev UserId := Nat

/-- A catalog Product record: `name`, `price`, `stock`
(the `Product` model; only the fields the order core reads). -/
structure Product where
  name : String
  price : ℚ
  stock : ℚ
  deriving DecidableEq, Repr

/-- A Coupon record (`couponSchema`): unique `code` and `discount` percentage. -/
structure Coupon where
  code : String
  discount : ℚ
  deriving DecidableEq, Repr

/-- A line item of an order request: `{ productId, quantity }`. -/
structure LineItem where
  productId : ProductId
  quantity : ℚ
  deriving DecidableEq, Repr

/-- An Order document as persisted through `orderSchema`.

`orderSchema` declares the paths `user`, `products`, `total`, `coupon`
(and `createdAt`, not modelled).  Mongoose runs in strict mode by
default: keys passed to `new Order(...)` that are not schema paths are
silently dropped, and reading a non-schema path on a hydrated document
yields `undefined`.  The non-schema key `userId`, which the POST /orders
handler writes and the GET /orders and invoice handlers read, is
therefore carried here as an `Option UserId` that the save path always
sets to `none`. -/
structure StoredOrder where
  user : Option UserId
  userId : Option UserId
  products : List LineItem
  total : ℚ
  coupon : String
  deriving DecidableEq, Repr

/-- The Catalog Store: products keyed by id (association list). -/
abbrev Catalog := List (ProductId × Product)

/-- A stock-update notification as emitted by `emitStockUpdate(productId, newStock)`:
the product id and the stock value sent to the `product-<id>` room. -/
abbrev Emit := ProductId × ℚ

/-- Whole-system state: Catalog Store, Coupon Store, Order Store. -/
structure SysState where
  catalog : Catalog
  coupons : List Coupon
  orders : List StoredOrder
  deriving DecidableEq, Repr

/-- `Product.findById`: look a product up by id (first entry with that key). -/
def findProduct : Catalog → ProductId → Option Product
  | [], _ => none
  | e :: rest, pid => if e.1 = pid then some e.2 else findProduct rest pid

/-- Overwrite the stock of the product with id `pid` (the effect of
`prod.stock = s; await prod.save()` / `findByIdAndUpdate(id, { stock })`). -/
def setStock (cat : Catalog) (pid : ProductId) (s : ℚ) : Catalog :=
  cat.map (fun e => if e.1 = pid then (e.1, { e.2 with stock := s }) else e)

/-- `Coupon.findOne({ code })`: first coupon whose code matches. -/
def findCouponByCode : List Coupon → String → Option Coupon
  | [], _ => none
  | c :: rest, code => if c.code = code then some c else findCouponByCode rest code

/-- Response of the POST /orders handler: either
`res.status(400).json({ error: msg })` or
`res.json({ message: "Order placed", order })`. -/
inductive OrderResponse where
  | badRequest (msg : String)
  | placed (order : StoredOrder)
  deriving DecidableEq, Repr

/-- The `for (let item of products)` loop of the POST /orders handler:
for each line item fetch the product; if it is missing or its stock is
below the requested quantity, stop with an error (the catalog keeps every
decrement already saved); otherwise decrement and save the stock, emit a
stock update with the new value, and add `prod.price * item.quantity` to
the running total.  Returns the catalog as left by the loop, the emitted
notifications in order, and `some total` on success / `none` on failure. -/
def processItems : Catalog → List LineItem → ℚ → List Emit →
    Catalog × List Emit × Option ℚ
  | cat, [], total, emits => (cat, emits, some total)
  | cat, item :: rest, total, emits =>
    match findProduct cat item.productId with
    | none => (cat, emits, none)
    | some prod =>
      if prod.stock < item.quantity then
        (cat, emits, none)
      else
        processItems (setStock cat item.productId (prod.stock - item.quantity)) rest
          (total + prod.price * item.quantity)
          (emits ++ [(item.productId, prod.stock - item.quantity)])

/-- The object literal the POST /orders handler passes to `new Order(...)`:
`{ userId: req.user.id, products, total, coupon: couponUsed }`. -/
structure OrderInput where
  userId : UserId
  products : List LineItem
  total : ℚ
  coupon : String
  deriving DecidableEq, Repr

/-- `new Order(input)` + `await order.save()`: the schema is applied to the
input object.  `products`, `total` and `coupon` are schema paths and are
stored; `userId` is NOT a path of `orderSchema` (the schema declares
`user`), so strict mode drops it, and the schema path `user`, which the
handler never supplies, stays absent. -/
def saveOrder (input : OrderInput) : StoredOrder :=
  { user := none, userId := none,
    products := input.products, total := input.total, coupon := input.coupon }

/-- The POST /orders handler (`app.post("/orders", ...)`); `uid` is
`req.user.id` as established by `authMiddleware`.  Processes the line
items, then applies the coupon when `couponCode` is truthy (nonempty)
and resolves, then persists the Order document and answers.  Returns the
new system state, the notifications emitted during the call (in order),
and the HTTP response. -/
def placeOrder (uid : UserId) (items : List LineItem) (couponCode : String) (st : SysState) :
    SysState × List Emit × OrderResponse :=
  match processItems st.catalog items 0 [] with
  | (cat, emits, none) =>
    ({ st with catalog := cat }, emits, .badRequest "Insufficient stock or invalid product")
  | (cat, emits, some total) =>
    let dres :=
      if couponCode ≠ "" then
        match findCouponByCode st.coupons couponCode with
        | some c => (total - total * c.discount / 100, c.code)
        | none => (total, "")
      else (total, "")
    let order := saveOrder { userId := uid, products := items, total := dres.1, coupon := dres.2 }
    ({ st with catalog := cat, orders := st.orders ++ [order] }, emits, .placed order)

/-- The GET /orders handler: `Order.find({ userId: req.user.id })`.
`userId` is not a schema path; under the current Mongoose default
(`strictQuery: false`) the filter is kept as written and matches only
documents whose `userId` equals the caller id. -/
def getOrders (uid : UserId) (st : SysState) : List StoredOrder :=
  st.orders.filter (fun o => o.userId = some uid)

/-- Response of the PUT /products/:id/stock handler: 404 when
`findByIdAndUpdate` returns null, otherwise the updated product. -/
inductive StockResponse where
  | notFound
  | ok (product : Product)
  deriving DecidableEq, Repr

/-- The PUT /products/:id/stock handler: `findByIdAndUpdate(id, { stock },
{ new: true })` (no validation of the supplied value), 404 when the
product does not exist, otherwise emit the raw body value and answer with
the updated product. -/
def updateStock (pid : ProductId) (stock : ℚ) (st : SysState) :
    SysState × List Emit × StockResponse :=
  match findProduct st.catalog pid with
  | none => (st, [], .notFound)
  | some p =>
    ({ st with catalog := setStock st.catalog pid stock },
      [(pid, stock)], .ok { p with stock := stock })

/-- Response of the GET /orders/:id/invoice handler: either
`res.status(403).json({ error: body })` or the PDF byte stream with the
given content type, rendered from the resolved order. -/
inductive InvoiceResponse where
  | err (status : ℕ) (body : String)
  | pdf (contentType : String) (order : StoredOrder)
  deriving DecidableEq, Repr

/-- The ownership test `String(order.userId) !== req.user.id` of the
invoice handler.  When `userId` is undefined, `String(undefined)` is the
string "undefined", which is distinct from every real user id, so the
test is exactly a mismatch test on the optional stored id. -/
def ownerMismatch (stored : Option UserId) (caller : UserId) : Prop :=
  stored ≠ some caller

instance (stored : Option UserId) (caller : UserId) :
    Decidable (ownerMismatch stored caller) := by
  unfold ownerMismatch; infer_instance

/-- The GET /orders/:id/invoice handler: fetch the order by id (list
index); answer 403 when it is missing or `String(order.userId)` differs
from the caller id; otherwise stream the PDF with content type
`application/pdf`. -/
def invoiceHandler (callerId : UserId) (oid : ℕ) (st : SysState) : InvoiceResponse :=
  match st.orders.get? oid with
  | none => .err 403 "Access denied"
  | some o =>
    if ownerMismatch o.userId callerId then .err 403 "Access denied"
    else .pdf "application/pdf" o

/-- The stock each product is left with by running the valid prefix of
the line items: decrement item by item, stopping at the first item whose
product is missing or whose stock is short.  Stated independently of
`processItems` to describe the catalog a failed placeOrder call leaves
behind. -/
def stockAfterItems : Catalog → List LineItem → Catalog
  | cat, [] => cat
  | cat, item :: rest =>
    match findProduct cat item.productId with
    | none => cat
    | some prod =>
      if prod.stock < item.quantity then cat
      else stockAfterItems (setStock cat item.productId (prod.stock - item.quantity)) rest

/-- The notifications a placeOrder call emits: one `(productId, newStock)`
per line item of the valid prefix, at decrement time.  Stated
independently of `processItems`. -/
def emitsForItems : Catalog → List LineItem → List Emit
  | _, [] => []
  | cat, item :: rest =>
    match findProduct cat item.productId with
    | none => []
    | some prod =>
      if prod.stock < item.quantity then []
      else (item.productId, prod.stock - item.quantity) ::
        emitsForItems (setStock cat item.productId (prod.stock - item.quantity)) rest

/-- Price of a product in a catalog (0 when absent; used only where the
product is known to exist). -/
def priceOf (cat : Catalog) (pid : ProductId) : ℚ :=
  ((findProduct cat pid).map Product.price).getD 0

/-- The undiscounted subtotal of a line-item list at the prices of a
given catalog: Σ unitPrice × quantity. -/
def subtotalAt (cat : Catalog) : List LineItem → ℚ
  | [] => 0
  | item :: rest => priceOf cat item.productId * item.quantity + subtotalAt cat rest

/-- Every product in a catalog has non-negative stock. -/
def CatalogNonneg (cat : Catalog) : Prop :=
  ∀ pr ∈ cat, 0 ≤ pr.2.stock

instance (cat : Catalog) : Decidable (CatalogNonneg cat) := by
  unfold CatalogNonneg; infer_instance

/-! ### Helper lemmas -/

theorem findProduct_setStock (cat : Catalog) (pid q : ProductId) (s : ℚ) :
    findProduct (setStock cat pid s) q =
      (findProduct cat q).map (fun p => if q = pid then { p with stock := s } else p) := by
  induction cat with
  | nil => rfl
  | cons e rest ih =>
    by_cases h1 : e.1 = pid
    · by_cases h2 : e.1 = q
      · have hq : q = pid := by rw [← h2, h1]
        simp [setStock, findProduct, h1, h2, hq]
      · have hq : ¬ pid = q := fun hh => h2 (h1.trans hh)
        simpa [setStock, findProduct, h1, h2, hq] using ih
    · by_cases h2 : e.1 = q
      · have hq : ¬ q = pid := fun hh => h1 (h2.trans hh)
        simp [setStock, findProduct, h1, h2, hq]
      · simpa [setStock, findProduct, h1, h2] using ih

theorem priceOf_setStock (cat : Catalog) (pid q : ProductId) (s : ℚ) :
    priceOf (setStock cat pid s) q = priceOf cat q := by
  unfold priceOf
  rw [findProduct_setStock]
  cases findProduct cat q with
  | none => rfl
  | some p => by_cases h : q = pid <;> simp [h]

theorem subtotalAt_setStock (cat : Catalog) (pid : ProductId) (s : ℚ) (items : List LineItem) :
    subtotalAt (setStock cat pid s) items = subtotalAt cat items := by
  induction items with
  | nil => rfl
  | cons it rest ih => simp [subtotalAt, priceOf_setStock, ih]

theorem processItems_catalog (items : List LineItem) (cat : Catalog) (t : ℚ) (e : List Emit) :
    (processItems cat items t e).1 = stockAfterItems cat items := by
  induction items generalizing cat t e with
  | nil => rfl
  | cons it rest ih =>
    unfold processItems stockAfterItems
    cases findProduct cat it.productId with
    | none => rfl
    | some prod =>
      by_cases h : prod.stock < it.quantity <;> simp [h, ih]

theorem processItems_emits (items : List LineItem) (cat : Catalog) (t : ℚ) (e : List Emit) :
    (processItems cat items t e).2.1 = e ++ emitsForItems cat items := by
  induction items generalizing cat t e with
  | nil => simp [processItems, emitsForItems]
  | cons it rest ih =>
    unfold processItems emitsForItems
    cases findProduct cat it.productId with
    | none => simp
    | some prod =>
      by_cases h : prod.stock < it.quantity <;> simp [h, ih]

theorem processItems_total (items : List LineItem) (cat cat' : Catalog) (t tot : ℚ)
    (e e' : List Emit) (h : processItems cat items t e = (cat', e', some tot)) :
    tot = t + subtotalAt cat items := by
  induction items generalizing cat t e with
  | nil =>
    simp [processItems] at h
    simp [subtotalAt, h]
  | cons it rest ih =>
    unfold processItems at h
    cases hf : findProduct cat it.productId with
    | none => simp [hf] at h
    | some prod =>
      simp only [hf] at h
      by_cases hs : prod.stock < it.quantity
      · simp [hs] at h
      · simp only [if_neg hs] at h
        have := ih _ _ _ h
        simp only [subtotalAt, subtotalAt_setStock] at this ⊢
        rw [this]
        simp [priceOf, hf]
        ring

theorem processItems_length (items : List LineItem) (cat cat' : Catalog) (t tot : ℚ)
    (e e' : List Emit) (h : processItems cat items t e = (cat', e', some tot)) :
    (emitsForItems cat items).length = items.length := by
  induction items generalizing cat t e with
  | nil => rfl
  | cons it rest ih =>
    unfold processItems at h
    unfold emitsForItems
    cases hf : findProduct cat it.productId with
    | none => simp [hf] at h
    | some prod =>
      simp only [hf] at h
      by_cases hs : prod.stock < it.quantity
      · simp [hs] at h
      · simp only [if_neg hs] at h ⊢
        simp [ih _ _ _ h]

theorem findProduct_mem (cat : Catalog) (pid : ProductId) (p : Product)
    (h : findProduct cat pid = some p) : (pid, p) ∈ cat := by
  induction cat with
  | nil => simp [findProduct] at h
  | cons e rest ih =>
    unfold findProduct at h
    by_cases h1 : e.1 = pid
    · simp only [if_pos h1, Option.some.injEq] at h
      have he : (pid, p) = e := by
        obtain ⟨a, b⟩ := e
        simp only at h1 h
        rw [← h1, ← h]
      rw [he]
      exact List.mem_cons_self _ _
    · simp only [if_neg h1] at h
      exact List.mem_cons_of_mem _ (ih h)

theorem setStock_nonneg (cat : Catalog) (pid : ProductId) (s : ℚ)
    (hcat : CatalogNonneg cat) (hs : 0 ≤ s) : CatalogNonneg (setStock cat pid s) := by
  intro pr hpr
  unfold setStock at hpr
  rcases List.mem_map.mp hpr with ⟨e, he, heq⟩
  by_cases h1 : e.1 = pid
  · simp only [if_pos h1] at heq
    rw [← heq]
    exact hs
  · simp only [if_neg h1] at heq
    rw [← heq]
    exact hcat e he

theorem processItems_nonneg (items : List LineItem) (cat : Catalog) (t : ℚ) (e : List Emit)
    (hcat : CatalogNonneg cat) : CatalogNonneg (processItems cat items t e).1 := by
  induction items generalizing cat t e with
  | nil => exact hcat
  | cons it rest ih =>
    unfold processItems
    cases hf : findProduct cat it.productId with
    | none => exact hcat
    | some prod =>
      by_cases hs : prod.stock < it.quantity
      · simp only [if_pos hs]
        exact hcat
      · simp only [if_neg hs]
        have hq : 0 ≤ prod.stock - it.quantity := by
          have := not_lt.mp hs
          linarith
        exact ih _ _ _ (setStock_nonneg _ _ _ hcat hq)

/-! ### Claim theorems -/

/-- C1 (counterexample): a placeOrder call of two line items whose second
item fails stock validation answers 400 but leaves the first product
decremented (stock 4 where the pre-call value was 5): the Catalog Store
is not restored to its pre-call values. -/
theorem c1_rollback_counterexample :
    (placeOrder 7
        [{ productId := 1, quantity := 1 }, { productId := 2, quantity := 1 }] ""
        { catalog := [(1, { name := "P1", price := 10, stock := 5 }),
                      (2, { name := "P2", price := 20, stock := 0 })],
          coupons := [], orders := [] }).2.2
      = .badRequest "Insufficient stock or invalid product" ∧
    findProduct
      (placeOrder 7
        [{ productId := 1, quantity := 1 }, { productId := 2, quantity := 1 }] ""
        { catalog := [(1, { name := "P1", price := 10, stock := 5 }),
                      (2, { name := "P2", price := 20, stock := 0 })],
          coupons := [], orders := [] }).1.catalog 1
      = some { name := "P1", price := 10, stock := 4 } := by
  refine ⟨?_, ?_⟩ <;>
    norm_num [placeOrder, processItems, findProduct, setStock, saveOrder, Product.mk.injEq]

/-- C1 (amended): when a placeOrder call fails stock validation, no Order
is persisted, but the Catalog Store keeps every decrement already applied
for line items before the failing one: the final catalog is the one
reached by decrementing along the valid prefix of the request, not the
pre-call catalog. -/
theorem c1_rollback_amended (uid : UserId) (items : List LineItem) (code : String)
    (st st' : SysState) (emits : List Emit) (msg : String)
    (h : placeOrder uid items code st = (st', emits, .badRequest msg)) :
    st'.orders = st.orders ∧ st'.catalog = stockAfterItems st.catalog items := by
  unfold placeOrder at h
  rcases hp : processItems st.catalog items 0 [] with ⟨cat, emits0, res⟩
  rw [hp] at h
  have hcat : cat = stockAfterItems st.catalog items := by
    have := processItems_catalog items st.catalog 0 []
    rw [hp] at this
    exact this
  cases res with
  | none =>
    simp only [Prod.mk.injEq] at h
    obtain ⟨h1, _, _⟩ := h
    rw [← h1, hcat]
    exact ⟨rfl, rfl⟩
  | some tot =>
    simp only [Prod.mk.injEq] at h
    exact absurd h.2.2 (by simp)

/-- C1 (witness for the amended theorem). -/
theorem c1_rollback_amended_witness :
    ({ catalog := [(1, { name := "P1", price := 10, stock := 4 }),
                   (2, { name := "P2", price := 20, stock := 0 })],
       coupons := [], orders := [] } : SysState).orders
      = ({ catalog := [(1, { name := "P1", price := 10, stock := 5 }),
                       (2, { name := "P2", price := 20, stock := 0 })],
           coupons := [], orders := [] } : SysState).orders ∧
    ({ catalog := [(1, { name := "P1", price := 10, stock := 4 }),
                   (2, { name := "P2", price := 20, stock := 0 })],
       coupons := [], orders := [] } : SysState).catalog
      = stockAfterItems
          ({ catalog := [(1, { name := "P1", price := 10, stock := 5 }),
                         (2, { name := "P2", price := 20, stock := 0 })],
             coupons := [], orders := [] } : SysState).catalog
          [{ productId := 1, quantity := 1 }, { productId := 2, quantity := 1 }] :=
  c1_rollback_amended 7
    [{ productId := 1, quantity := 1 }, { productId := 2, quantity := 1 }] ""
    { catalog := [(1, { name := "P1", price := 10, stock := 5 }),
                  (2, { name := "P2", price := 20, stock := 0 })],
      coupons := [], orders := [] }
    { catalog := [(1, { name := "P1", price := 10, stock := 4 }),
                  (2, { name := "P2", price := 20, stock := 0 })],
      coupons := [], orders := [] }
    [(1, 4)] "Insufficient stock or invalid product"
    (by norm_num [placeOrder, processItems, findProduct, setStock, Prod.ext_iff])

/-- C2: a successful placeOrder call persists an Order document with no
owner recorded (the schema path `user` is never supplied by the handler
and the `userId` key it writes is not a schema path, so strict mode drops
it), and a subsequent GET /orders by the same user returns the empty list
rather than a sequence containing that order. -/
theorem c2_owner_never_stored :
    (placeOrder 7 [{ productId := 1, quantity := 1 }] ""
        { catalog := [(1, { name := "P1", price := 100, stock := 5 })],
          coupons := [], orders := [] }).2.2
      = .placed { user := none, userId := none,
                  products := [{ productId := 1, quantity := 1 }],
                  total := 100, coupon := "" } ∧
    (placeOrder 7 [{ productId := 1, quantity := 1 }] ""
        { catalog := [(1, { name := "P1", price := 100, stock := 5 })],
          coupons := [], orders := [] }).1.orders
      = [{ user := none, userId := none,
           products := [{ productId := 1, quantity := 1 }],
           total := 100, coupon := "" }] ∧
    getOrders 7
      (placeOrder 7 [{ productId := 1, quantity := 1 }] ""
        { catalog := [(1, { name := "P1", price := 100, stock := 5 })],
          coupons := [], orders := [] }).1
      = [] := by
  refine ⟨?_, ?_, ?_⟩ <;>
    norm_num [placeOrder, processItems, findProduct, setStock, saveOrder, getOrders,
      StoredOrder.mk.injEq] <;> decide

/-- C3: the total of a successfully placed order is the subtotal
Σ unitPrice × quantity at the prices the decrement loop read, times
(1 − discount/100) when a nonempty coupon code resolves, and
undiscounted otherwise. -/
theorem c3_total_formula (uid : UserId) (items : List LineItem) (code : String)
    (st st' : SysState) (emits : List Emit) (o : StoredOrder)
    (h : placeOrder uid items code st = (st', emits, .placed o)) :
    o.total =
      if code ≠ "" then
        match findCouponByCode st.coupons code with
        | some c => subtotalAt st.catalog items * (1 - c.discount / 100)
        | none => subtotalAt st.catalog items
      else subtotalAt st.catalog items := by
  unfold placeOrder at h
  rcases hp : processItems st.catalog items 0 [] with ⟨cat, emits0, res⟩
  rw [hp] at h
  cases res with
  | none =>
    simp only [Prod.mk.injEq] at h
    exact absurd h.2.2 (by simp)
  | some tot =>
    have htot : tot = subtotalAt st.catalog items := by
      have := processItems_total items st.catalog cat 0 tot [] emits0 hp
      simpa using this
    simp only [Prod.mk.injEq, OrderResponse.placed.injEq] at h
    rw [← h.2.2]
    by_cases hc : code = ""
    · simp [saveOrder, hc, htot]
    · cases hf : findCouponByCode st.coupons code with
      | none => simp [saveOrder, hc, hf, htot]
      | some c =>
        simp [saveOrder, hc, hf, htot]
        ring

/-- C3 (witness): product of price 100, quantity 3, coupon SAVE10 with
discount 10 gives total 300 × (1 − 10/100) = 270. -/
theorem c3_total_formula_witness :
    ({ user := none, userId := none,
       products := [{ productId := 1, quantity := 3 }],
       total := 270, coupon := "SAVE10" } : StoredOrder).total =
      if "SAVE10" ≠ "" then
        match findCouponByCode [{ code := "SAVE10", discount := 10 }] "SAVE10" with
        | some c =>
          subtotalAt [(1, { name := "P1", price := 100, stock := 5 })]
            [{ productId := 1, quantity := 3 }] * (1 - c.discount / 100)
        | none =>
          subtotalAt [(1, { name := "P1", price := 100, stock := 5 })]
            [{ productId := 1, quantity := 3 }]
      else
        subtotalAt [(1, { name := "P1", price := 100, stock := 5 })]
          [{ productId := 1, quantity := 3 }] :=
  c3_total_formula 7 [{ productId := 1, quantity := 3 }] "SAVE10"
    { catalog := [(1, { name := "P1", price := 100, stock := 5 })],
      coupons := [{ code := "SAVE10", discount := 10 }], orders := [] }
    { catalog := [(1, { name := "P1", price := 100, stock := 2 })],
      coupons := [{ code := "SAVE10", discount := 10 }],
      orders := [{ user := none, userId := none,
                   products := [{ productId := 1, quantity := 3 }],
                   total := 270, coupon := "SAVE10" }] }
    [(1, 2)]
    { user := none, userId := none,
      products := [{ productId := 1, quantity := 3 }],
      total := 270, coupon := "SAVE10" }
    (by norm_num [placeOrder, processItems, findProduct, setStock, saveOrder,
      findCouponByCode, Prod.ext_iff, StoredOrder.mk.injEq] <;> decide)

/-- C4 (counterexample): starting from a catalog satisfying stock ≥ 0,
the administrative stock update with the body value −5 leaves the
product with stock −5: the operation does not preserve the invariant. -/
theorem c4_stock_invariant_counterexample :
    CatalogNonneg [(1, { name := "P1", price := 10, stock := 2 })] ∧
    ¬ CatalogNonneg
        (updateStock 1 (-5)
          { catalog := [(1, { name := "P1", price := 10, stock := 2 })],
            coupons := [], orders := [] }).1.catalog := by
  constructor
  · norm_num [CatalogNonneg]
  · norm_num [CatalogNonneg, updateStock, findProduct, setStock]

/-- C4 (amended): placeOrder preserves non-negative stock for every
product (it decrements only when stock ≥ quantity), but the
administrative PUT /products/:id/stock sets stock to the supplied body
value with no check, so it preserves the invariant only when that value
is non-negative. -/
theorem c4_stock_invariant_amended (uid : UserId) (items : List LineItem) (code : String)
    (pid : ProductId) (s : ℚ) (st : SysState) (hcat : CatalogNonneg st.catalog) :
    CatalogNonneg (placeOrder uid items code st).1.catalog ∧
    (0 ≤ s → CatalogNonneg (updateStock pid s st).1.catalog) := by
  constructor
  · have hn := processItems_nonneg items st.catalog 0 [] hcat
    unfold placeOrder
    rcases hp : processItems st.catalog items 0 [] with ⟨cat, emits0, res⟩
    rw [hp] at hn
    cases res <;> simpa using hn
  · intro hs
    unfold updateStock
    cases hf : findProduct st.catalog pid with
    | none => simpa using hcat
    | some p => simpa using setStock_nonneg st.catalog pid s hcat hs

/-- C4 (witness for the amended theorem). -/
theorem c4_stock_invariant_amended_witness :
    CatalogNonneg
      (placeOrder 7 [{ productId := 1, quantity := 1 }] ""
        { catalog := [(1, { name := "P1", price := 10, stock := 2 })],
          coupons := [], orders := [] }).1.catalog ∧
    (0 ≤ (3 : ℚ) → CatalogNonneg
      (updateStock 1 3
        { catalog := [(1, { name := "P1", price := 10, stock := 2 })],
          coupons := [], orders := [] }).1.catalog) :=
  c4_stock_invariant_amended 7 [{ productId := 1, quantity := 1 }] "" 1 3
    { catalog := [(1, { name := "P1", price := 10, stock := 2 })],
      coupons := [], orders := [] }
    (by norm_num [CatalogNonneg])

/-- C5 (counterexample): a placeOrder call whose second line item fails
stock validation persists no Order yet has already emitted a stock-update
notification for the first line item: notifications are not gated on
persistence. -/
theorem c5_emit_counterexample :
    (placeOrder 9
        [{ productId := 1, quantity := 2 }, { productId := 2, quantity := 1 }] ""
        { catalog := [(1, { name := "A", price := 10, stock := 3 }),
                      (2, { name := "B", price := 5, stock := 0 })],
          coupons := [], orders := [] }).2.2
      = .badRequest "Insufficient stock or invalid product" ∧
    (placeOrder 9
        [{ productId := 1, quantity := 2 }, { productId := 2, quantity := 1 }] ""
        { catalog := [(1, { name := "A", price := 10, stock := 3 }),
                      (2, { name := "B", price := 5, stock := 0 })],
          coupons := [], orders := [] }).1.orders = [] ∧
    (placeOrder 9
        [{ productId := 1, quantity := 2 }, { productId := 2, quantity := 1 }] ""
        { catalog := [(1, { name := "A", price := 10, stock := 3 }),
                      (2, { name := "B", price := 5, stock := 0 })],
          coupons := [], orders := [] }).2.1 = [(1, 1)] ∧
    ([(1, 1)] : List Emit) ≠ [] := by
  refine ⟨?_, ?_, ?_, ?_⟩ <;>
    norm_num [placeOrder, processItems, findProduct, setStock, Prod.ext_iff]

/-- C5 (amended): every placeOrder call emits one stock-update
notification per line item of its valid prefix, at decrement time —
before any Order is persisted — so a call that fails mid-way has already
emitted the notifications of its earlier items; on success there is one
notification per line item. -/
theorem c5_emit_amended (uid : UserId) (items : List LineItem) (code : String) (st : SysState) :
    (placeOrder uid items code st).2.1 = emitsForItems st.catalog items ∧
    (∀ o : StoredOrder, (placeOrder uid items code st).2.2 = .placed o →
      (emitsForItems st.catalog items).length = items.length) := by
  have he := processItems_emits items st.catalog 0 []
  unfold placeOrder
  rcases hp : processItems st.catalog items 0 [] with ⟨cat, emits0, res⟩
  rw [hp] at he
  simp only [List.nil_append] at he
  cases res with
  | none =>
    refine ⟨by simpa using he, ?_⟩
    intro o ho
    simp at ho
  | some tot =>
    refine ⟨by simpa using he, ?_⟩
    intro o _
    exact processItems_length items st.catalog cat 0 tot [] emits0 hp

/-- C5 (witness for the amended theorem). -/
theorem c5_emit_amended_witness :
    (placeOrder 9 [{ productId := 1, quantity := 1 }] ""
        { catalog := [(1, { name := "A", price := 10, stock := 3 })],
          coupons := [], orders := [] }).2.1
      = emitsForItems [(1, { name := "A", price := 10, stock := 3 })]
          [{ productId := 1, quantity := 1 }] ∧
    (emitsForItems [(1, { name := "A", price := 10, stock := 3 })]
        [{ productId := 1, quantity := 1 }]).length
      = [({ productId := 1, quantity := 1 } : LineItem)].length :=
  ⟨(c5_emit_amended 9 [{ productId := 1, quantity := 1 }] ""
      { catalog := [(1, { name := "A", price := 10, stock := 3 })],
        coupons := [], orders := [] }).1,
   (c5_emit_amended 9 [{ productId := 1, quantity := 1 }] ""
      { catalog := [(1, { name := "A", price := 10, stock := 3 })],
        coupons := [], orders := [] }).2
     { user := none, userId := none,
       products := [{ productId := 1, quantity := 1 }], total := 10, coupon := "" }
     (by norm_num [placeOrder, processItems, findProduct, setStock, saveOrder,
        StoredOrder.mk.injEq])⟩

/-- C6: a placeOrder call with a nonempty coupon code that resolves to no
Coupon behaves exactly like the same call with no coupon code: it
succeeds, the persisted order has an empty coupon field and the
undiscounted total, and no error is returned. -/
theorem c6_unknown_coupon (uid : UserId) (items : List LineItem) (code : String)
    (st st' : SysState) (emits : List Emit) (o : StoredOrder)
    (hcode : code ≠ "")
    (hfind : findCouponByCode st.coupons code = none)
    (h : placeOrder uid items "" st = (st', emits, .placed o)) :
    placeOrder uid items code st = (st', emits, .placed o) ∧
    o.coupon = "" ∧ o.total = subtotalAt st.catalog items := by
  unfold placeOrder at h ⊢
  rcases hp : processItems st.catalog items 0 [] with ⟨cat, emits0, res⟩
  rw [hp] at h
  cases res with
  | none =>
    simp only [Prod.mk.injEq] at h
    exact absurd h.2.2 (by simp)
  | some tot =>
    have htot : tot = subtotalAt st.catalog items := by
      simpa using processItems_total items st.catalog cat 0 tot [] emits0 hp
    simp only [ne_eq, not_true_eq_false, if_false, ite_false, reduceIte] at h
    simp only [ne_eq, hcode, not_false_eq_true, if_true, ite_true, reduceIte, hfind]
    refine ⟨h, ?_, ?_⟩ <;>
      simp only [Prod.mk.injEq, OrderResponse.placed.injEq] at h
    · rw [← h.2.2, saveOrder]
    · rw [← h.2.2, saveOrder, htot]

/-- C6 (witness): an order placed with the unknown code NOPE against a
Coupon Store holding only SAVE10 succeeds, with empty coupon field and
the undiscounted total. -/
theorem c6_unknown_coupon_witness :
    (placeOrder 7 [{ productId := 1, quantity := 2 }] "NOPE"
        { catalog := [(1, { name := "A", price := 100, stock := 5 })],
          coupons := [{ code := "SAVE10", discount := 10 }], orders := [] }
      = ({ catalog := [(1, { name := "A", price := 100, stock := 3 })],
           coupons := [{ code := "SAVE10", discount := 10 }],
           orders := [{ user := none, userId := none,
                        products := [{ productId := 1, quantity := 2 }],
                        total := 200, coupon := "" }] },
         [(1, 3)],
         .placed { user := none, userId := none,
                   products := [{ productId := 1, quantity := 2 }],
                   total := 200, coupon := "" })) ∧
    ({ user := none, userId := none,
       products := [{ productId := 1, quantity := 2 }],
       total := 200, coupon := "" } : StoredOrder).coupon = "" ∧
    ({ user := none, userId := none,
       products := [{ productId := 1, quantity := 2 }],
       total := 200, coupon := "" } : StoredOrder).total
      = subtotalAt [(1, { name := "A", price := 100, stock := 5 })]
          [{ productId := 1, quantity := 2 }] :=
  c6_unknown_coupon 7 [{ productId := 1, quantity := 2 }] "NOPE"
    { catalog := [(1, { name := "A", price := 100, stock := 5 })],
      coupons := [{ code := "SAVE10", discount := 10 }], orders := [] }
    { catalog := [(1, { name := "A", price := 100, stock := 3 })],
      coupons := [{ code := "SAVE10", discount := 10 }],
      orders := [{ user := none, userId := none,
                   products := [{ productId := 1, quantity := 2 }],
                   total := 200, coupon := "" }] }
    [(1, 3)]
    { user := none, userId := none,
      products := [{ productId := 1, quantity := 2 }],
      total := 200, coupon := "" }
    (by decide)
    (by decide)
    (by norm_num [placeOrder, processItems, findProduct, setStock, saveOrder,
      Prod.ext_iff, StoredOrder.mk.injEq, SysState.mk.injEq])

/-- C7 (counterexample): a placeOrder call with an empty line-item list
is not rejected: it succeeds and persists an Order with no products and
total 0, contradicting the claimed InvalidLineItem failure. -/
theorem c7_validation_counterexample :
    (placeOrder 7 [] ""
        { catalog := [(1, { name := "X", price := 7, stock := 1 })],
          coupons := [], orders := [] }).2.2
      = .placed { user := none, userId := none, products := [], total := 0, coupon := "" } ∧
    (placeOrder 7 [] ""
        { catalog := [(1, { name := "X", price := 7, stock := 1 })],
          coupons := [], orders := [] }).1.orders
      = [{ user := none, userId := none, products := [], total := 0, coupon := "" }] := by
  refine ⟨?_, ?_⟩ <;>
    norm_num [placeOrder, processItems, saveOrder, StoredOrder.mk.injEq]

/-- C7 (amended): the handler performs no line-item validation.  An
empty line-item list yields a successful call that changes no stock and
persists an Order with total 0; a line item with non-positive quantity
passes the stock check whenever the catalog stock is non-negative and is
processed like any other, its quantity subtracted from the stock (which
therefore grows for a negative quantity). -/
theorem c7_validation_amended :
    (∀ (uid : UserId) (st : SysState),
      placeOrder uid [] "" st =
        ({ st with orders := st.orders ++
            [{ user := none, userId := none, products := [], total := 0, coupon := "" }] },
         [],
         .placed { user := none, userId := none, products := [], total := 0, coupon := "" })) ∧
    (∀ (uid : UserId) (pid : ProductId) (q : ℚ) (p : Product) (st : SysState),
      q ≤ 0 → findProduct st.catalog pid = some p → 0 ≤ p.stock →
      (placeOrder uid [{ productId := pid, quantity := q }] "" st).2.2 =
        .placed { user := none, userId := none,
                  products := [{ productId := pid, quantity := q }],
                  total := p.price * q, coupon := "" } ∧
      findProduct (placeOrder uid [{ productId := pid, quantity := q }] "" st).1.catalog pid =
        some { p with stock := p.stock - q }) := by
  constructor
  · intro uid st
    simp [placeOrder, processItems, saveOrder]
  · intro uid pid q p st hq hfp hst
    have hnlt : ¬ p.stock < q := not_lt.mpr (le_trans hq hst)
    constructor
    · simp [placeOrder, processItems, hfp, hnlt, saveOrder]
    · simp [placeOrder, processItems, hfp, hnlt, findProduct_setStock]

/-- C7 (witness for the amended theorem). -/
theorem c7_validation_amended_witness :
    (placeOrder 7 [] ""
        { catalog := [(1, { name := "X", price := 7, stock := 1 })],
          coupons := [], orders := [] }
      = ({ catalog := [(1, { name := "X", price := 7, stock := 1 })],
           coupons := [],
           orders := [{ user := none, userId := none, products := [], total := 0, coupon := "" }] },
         [],
         .placed { user := none, userId := none, products := [], total := 0, coupon := "" })) ∧
    ((placeOrder 7 [{ productId := 1, quantity := -2 }] ""
        { catalog := [(1, { name := "X", price := 7, stock := 1 })],
          coupons := [], orders := [] }).2.2
      = .placed { user := none, userId := none,
                  products := [{ productId := 1, quantity := -2 }],
                  total := 7 * (-2), coupon := "" } ∧
     findProduct (placeOrder 7 [{ productId := 1, quantity := -2 }] ""
        { catalog := [(1, { name := "X", price := 7, stock := 1 })],
          coupons := [], orders := [] }).1.catalog 1
      = some { name := "X", price := 7, stock := 1 - (-2) }) :=
  ⟨c7_validation_amended.1 7
    { catalog := [(1, { name := "X", price := 7, stock := 1 })],
      coupons := [], orders := [] },
   c7_validation_amended.2 7 1 (-2) { name := "X", price := 7, stock := 1 }
    { catalog := [(1, { name := "X", price := 7, stock := 1 })],
      coupons := [], orders := [] }
    (by norm_num) (by norm_num [findProduct]) (by norm_num)⟩

/-- C8: the single-line-item order for product 1 (stock 2) requesting
quantity 5 fails with the insufficient-stock error, leaves the product
with stock 2 and persists no Order. -/
theorem c8_insufficient_stock :
    placeOrder 7 [{ productId := 1, quantity := 5 }] ""
        { catalog := [(1, { name := "ProductA", price := 100, stock := 2 })],
          coupons := [], orders := [] }
      = ({ catalog := [(1, { name := "ProductA", price := 100, stock := 2 })],
           coupons := [], orders := [] },
         [], .badRequest "Insufficient stock or invalid product") := by
  norm_num [placeOrder, processItems, findProduct, Prod.ext_iff, SysState.mk.injEq]

/-- C9: the creator of an order is denied their own invoice.  A user
places an order successfully; the stored document carries no `userId`
(the schema dropped it), so the invoice handler's ownership test
`String(order.userId) !== req.user.id` fails for the owner as well and
the endpoint answers 403 instead of the application/pdf stream. -/
theorem c9_invoice_owner_denied :
    (placeOrder 7 [{ productId := 1, quantity := 2 }] ""
        { catalog := [(1, { name := "P", price := 50, stock := 4 })],
          coupons := [], orders := [] }).2.2
      = .placed { user := none, userId := none,
                  products := [{ productId := 1, quantity := 2 }],
                  total := 100, coupon := "" } ∧
    (placeOrder 7 [{ productId := 1, quantity := 2 }] ""
        { catalog := [(1, { name := "P", price := 50, stock := 4 })],
          coupons := [], orders := [] }).1.orders.get? 0
      = some { user := none, userId := none,
               products := [{ productId := 1, quantity := 2 }],
               total := 100, coupon := "" } ∧
    invoiceHandler 7 0
      (placeOrder 7 [{ productId := 1, quantity := 2 }] ""
        { catalog := [(1, { name := "P", price := 50, stock := 4 })],
          coupons := [], orders := [] }).1
      = .err 403 "Access denied" := by
  refine ⟨?_, ?_, ?_⟩ <;>
    norm_num [placeOrder, processItems, findProduct, setStock, saveOrder,
      invoiceHandler, ownerMismatch, StoredOrder.mk.injEq] <;> decide

/-- C10: when the invoice endpoint is called with an id matching no
existing order, the response is the same 403 Access denied error the
handler answers on an ownership mismatch (the `!order || mismatch` test
shares a single branch), not a 404. -/
theorem c10_invoice_missing_order (caller : UserId) (oid : ℕ) (st : SysState)
    (h : st.orders.get? oid = none) :
    invoiceHandler caller oid st = .err 403 "Access denied" := by
  unfold invoiceHandler
  rw [h]

/-- C10 (witness): empty Order Store. -/
theorem c10_invoice_missing_order_witness :
    invoiceHandler 7 0 { catalog := [], coupons := [], orders := [] }
      = .err 403 "Access denied" :=
  c10_invoice_missing_order 7 0 { catalog := [], coupons := [], orders := [] } rfl

end ECommerce
